import Mathlib

/-!
Verification of the subscription/usage-metering core of the Troika chatbot
backend (Go).  Time instants are modelled as integers (seconds); Go's
`time.Time.After` is strict `>` and Mongo's `$lt` is strict `<`.  Go's
calendar month addition `AddDate(0, m, 0)` is modelled as a fixed-length
month of 2592000 seconds (30 days); every statement below compares expiry
values structurally through this single `addMonths` function, so the exact
month length is immaterial.  Go `float64` percentages are modelled as exact
rationals.  Mongo documents are modelled as typed records; the store-level
`$inc` update is the function `atomicIncrementUsage`.
-/

/-- Project record (`models.Project`), restricted to the fields the
subscription/metering core reads or writes.  `id` stands for the Mongo
`_id`, `projectId` for the external `project_id`. -/
structure Project where
  id : String
  projectId : String
  name : String
  status : String
  expiryDate : Int
  totalTokensUsed : Int
  monthlyTokenLimit : Int
  isActive : Bool
  reminderSent : Bool
  updatedAt : Int
  pdfContent : String
  openAIModel : String
deriving DecidableEq, Repr

/-- Notification log entry (`LogNotification` document shape). -/
structure NotificationRecord where
  projectId : String
  ntype : String
  message : String
  sentAt : Int
deriving DecidableEq, Repr

/-- Chat message document inserted by `ProjectChatMessage`. -/
structure ChatMessage where
  projectId : String
  sessionId : String
  userId : String
  message : String
  response : String
  tokensUsed : Int
  createdAt : Int
deriving DecidableEq, Repr

/-- A `(projectId, newStatus)` persistence command emitted by a validator
(the Go code issues it as `updateProjectStatusAsync` in `auth.go` and as a
synchronous `updateProjectStatus` in `chat.go`). -/
abbrev StatusUpdate := String × String

/-- Go `AddDate(0, m, 0)` on an instant, with a fixed 30-day month
(2592000 s); see the header note. -/
def addMonths (t : Int) (m : Int) : Int :=
  t + m * 2592000

/-- The `switch project.Status` message table of
`handlers/auth.go validateProjectSubscription`. -/
def statusBlockMessageAuth (status : String) : String :=
  if status = "expired" then "Your subscription has expired. Please renew to continue"
  else if status = "suspended" then "Your account is suspended. Please contact support"
  else if status = "deleted" then "This project has been deleted"
  else "Your account is inactive. Please contact support"

/-- The `switch project.Status` message table of
`handlers/chat.go getProjectWithValidation` (same texts with a trailing
period). -/
def statusBlockMessageChat (status : String) : String :=
  if status = "expired" then "Your subscription has expired. Please renew to continue."
  else if status = "suspended" then "Your account is suspended. Please contact support."
  else if status = "deleted" then "This project has been deleted."
  else "Your account is inactive. Please contact support."

/-- `handlers/auth.go validateProjectSubscription`, given the decoded
project record (the Mongo lookup is elided).  Returns the request outcome
together with the status-update commands the handler fires (the Go code
runs `go updateProjectStatusAsync(projectID, "expired")` on the expiry
branch). -/
def validateProjectSubscription (p : Project) (now : Int) :
    Except String Project × List StatusUpdate :=
  if p.status ≠ "active" then
    (Except.error (statusBlockMessageAuth p.status), [])
  else if now > p.expiryDate then
    (Except.error "Your subscription has expired. Please renew to continue",
      [(p.projectId, "expired")])
  else if !p.isActive then
    (Except.error "This project is no longer available", [])
  else
    (Except.ok p, [])

/-- `handlers/auth.go TokenLimitValidator` restricted to a chat endpoint
with the project already in context: aborts when
`TotalTokensUsed >= MonthlyTokenLimit`, otherwise passes the request on
(the 90% warning header does not change the outcome). -/
def tokenLimitValidator (p : Project) : Except String Project :=
  if p.totalTokensUsed ≥ p.monthlyTokenLimit then
    Except.error "Monthly usage limit reached. Please upgrade your plan or contact support."
  else
    Except.ok p

/-- The middleware chain on a chat request: `validateProjectSubscription`
followed (on success) by `TokenLimitValidator`. -/
def subscriptionEvaluation (p : Project) (now : Int) :
    Except String Project × List StatusUpdate :=
  match validateProjectSubscription p now with
  | (Except.ok q, ups) => (tokenLimitValidator q, ups)
  | (Except.error e, ups) => (Except.error e, ups)

/-- `handlers/chat.go getProjectWithValidation`: status check, expiry check
(with a synchronous `updateProjectStatus(projectID, "expired")`), then the
token-limit check.  Note the Go function has no `IsActive` check. -/
def getProjectWithValidation (p : Project) (now : Int) :
    Except String Project × List StatusUpdate :=
  if p.status ≠ "active" then
    (Except.error (statusBlockMessageChat p.status), [])
  else if now > p.expiryDate then
    (Except.error "Your subscription has expired. Please renew to continue.",
      [(p.projectId, "expired")])
  else if p.totalTokensUsed ≥ p.monthlyTokenLimit then
    (Except.error "Monthly usage limit reached. Please upgrade your plan.", [])
  else
    (Except.ok p, [])

/-- Base record used to build the concrete instances below. -/
def baseProject : Project :=
  { id := "64a1f0c2e4b0a1b2c3d4e5f6"
  , projectId := "proj_base"
  , name := "Demo"
  , status := "active"
  , expiryDate := 1000000
  , totalTokensUsed := 0
  , monthlyTokenLimit := 100000
  , isActive := true
  , reminderSent := false
  , updatedAt := 0
  , pdfContent := ""
  , openAIModel := "gpt-4o" }

/-- Store-level `$inc` update on `total_tokens_used`: the single atomic
operation issued by `ProjectChatMessage` (chat.go:58-62) and by
`updateProjectTokenUsage`. -/
def atomicIncrementUsage (p : Project) (delta : Int) : Project :=
  { p with totalTokensUsed := p.totalTokensUsed + delta }

/-- `config/database.go WasNotificationRecentlySent`: is there a log entry
for this project and type with `sent_at >= now - hours`? -/
def wasNotificationRecentlySent (log : List NotificationRecord)
    (pid : String) (ntype : String) (hours : Int) (now : Int) : Bool :=
  log.any fun n =>
    n.projectId == pid && n.ntype == ntype && decide (now - hours * 3600 ≤ n.sentAt)

/-- The usage percentage `float64(newTotal) / float64(limit) * 100`
computed by `updateProjectTokenUsage` after adding `t` tokens, modelled
exactly over ℚ. -/
def usagePercentAfter (p : Project) (t : Int) : ℚ :=
  ((p.totalTokensUsed + t : Int) : ℚ) / ((p.monthlyTokenLimit : Int) : ℚ) * 100

/-- The `monthly_limit` entry written by `updateProjectTokenUsage`. -/
def monthlyLimitRecord (p : Project) (now : Int) : NotificationRecord :=
  { projectId := p.id, ntype := "monthly_limit"
  , message := "Monthly token limit reached for project: " ++ p.name
  , sentAt := now }

/-- The `usage_warning` entry written by `updateProjectTokenUsage` (the
numeric `%.1f` percentage inside the Go message text is elided). -/
def usageWarningRecord (p : Project) (now : Int) : NotificationRecord :=
  { projectId := p.id, ntype := "usage_warning"
  , message := "Token usage warning for project: " ++ p.name
  , sentAt := now }

/-- `handlers/chat.go updateProjectTokenUsage`: reads the project, applies
the `$inc` (plus `updated_at`), then fires the threshold notifications
with their dedup windows, exactly as in the Go code. -/
def updateProjectTokenUsage (p : Project) (tokensUsed : Int) (now : Int)
    (log : List NotificationRecord) : Project × List NotificationRecord :=
  let usagePercent := usagePercentAfter p tokensUsed
  let p2 := { atomicIncrementUsage p tokensUsed with updatedAt := now }
  let log2 :=
    if usagePercent ≥ 100 then
      if wasNotificationRecentlySent log p.id "monthly_limit" 24 now then log
      else log ++ [monthlyLimitRecord p now]
    else if usagePercent ≥ 80 then
      if wasNotificationRecentlySent log p.id "usage_warning" 12 now then log
      else log ++ [usageWarningRecord p now]
    else log
  (p2, log2)

/-- Number of `usage_warning` log entries recorded for a given project. -/
def warnCount (pid : String) (log : List NotificationRecord) : Nat :=
  (log.filter fun n => n.projectId == pid && n.ntype == "usage_warning").length

/-- Concrete project used to exercise the usage accumulator. -/
def meteredProject : Project :=
  { baseProject with monthlyTokenLimit := 1000 }

/-- Outcome of the LLM provider call `client.CreateChatCompletion`: either
a transport error or a list of choice texts plus `Usage.TotalTokens`. -/
abbrev ProviderResult := Except String (List String × Int)

/-- Pure tail of `handlers/chat.go generateOpenAIResponse`: propagate the
provider error, reject an empty choice list, otherwise return the first
choice text and the total token count. -/
def generateOpenAIResponse (api : ProviderResult) : Except String (String × Int) :=
  match api with
  | Except.error e => Except.error e
  | Except.ok ([], _) => Except.error "no response generated"
  | Except.ok (choice :: _, tokens) => Except.ok (choice, tokens)

/-- HTTP outcome of `ProjectChatMessage`. -/
inductive ChatOutcome where
  | notFound (errMsg : String)
  | llmFailed (errMsg : String)
  | success (response : String) (tokensUsed : Int)
deriving DecidableEq, Repr

/-- Result of one `ProjectChatMessage` request: the stored project after
the request, the chat messages inserted, and the HTTP outcome. -/
structure ChatHandlerResult where
  store : Option Project
  inserted : List ChatMessage
  outcome : ChatOutcome
deriving DecidableEq, Repr

/-- `handlers/chat.go ProjectChatMessage`: look the project up, call the
LLM, and only on success apply the store `$inc` charge and insert the chat
message document.  The store is the (optional) record for the requested
project id; the provider call result is an input. -/
def ProjectChatMessage (store : Option Project) (api : ProviderResult)
    (userMessage sessionId userId : String) (now : Int) : ChatHandlerResult :=
  match store with
  | none => ⟨none, [], ChatOutcome.notFound "Project not found"⟩
  | some project =>
    match generateOpenAIResponse api with
    | Except.error _ =>
      ⟨some project, [], ChatOutcome.llmFailed "Failed to generate response"⟩
    | Except.ok (response, tokenUsage) =>
      ⟨some (atomicIncrementUsage project tokenUsage),
        [{ projectId := project.projectId, sessionId := sessionId, userId := userId
         , message := userMessage, response := response, tokensUsed := tokenUsage
         , createdAt := now }],
        ChatOutcome.success response tokenUsage⟩

/-- Per-record effect of the `UpdateMany` in
`config/database.go UpdateExpiredProjects`: a record matching
`expiry_date < now AND status != "expired"` gets `status = "expired"` and
a fresh `updated_at`; any other record is untouched. -/
def sweepProject (now : Int) (p : Project) : Project :=
  if p.expiryDate < now ∧ p.status ≠ "expired" then
    { p with status := "expired", updatedAt := now }
  else p

/-- The sweep filter `expiry_date < now AND status != "expired"` as a
boolean predicate. -/
def expiredMatch (now : Int) (p : Project) : Bool :=
  decide (p.expiryDate < now ∧ p.status ≠ "expired")

/-- `config/database.go UpdateExpiredProjects` over the projects
collection, modelled as a list of records. -/
def UpdateExpiredProjects (now : Int) (ps : List Project) : List Project :=
  ps.map (sweepProject now)

/-- `DeleteProject` (admin handler): soft delete, setting `status` and
`is_active` on the record. -/
def DeleteProject (p : Project) (now : Int) : Project :=
  { p with status := "deleted", isActive := false, updatedAt := now }

/-- Admin `ReactivateProject` handler: reject when strictly past expiry,
otherwise `updateProjectStatus(projectID, "active")`. -/
def ReactivateProject (p : Project) (now : Int) : Except String Project :=
  if now > p.expiryDate then
    Except.error "Cannot reactivate expired project. Please renew first."
  else
    Except.ok { p with status := "active", updatedAt := now }

/-- Stored project after the admin `ReactivateProject` handler ran (an
error response leaves the record as it was). -/
def reactivateProjectFinal (p : Project) (now : Int) : Project :=
  match ReactivateProject p now with
  | Except.ok q => q
  | Except.error _ => p

/-- `handlers/auth.go ReactivateSubscription`: reject when strictly past
expiry, reject when already active, otherwise set `status = "active"`. -/
def ReactivateSubscription (p : Project) (now : Int) : Except String Project :=
  if now > p.expiryDate then
    Except.error "Cannot reactivate expired subscription. Please renew first."
  else if p.status = "active" then
    Except.error "Subscription is already active"
  else
    Except.ok { p with status := "active", updatedAt := now }

/-- Stored project after `ReactivateSubscription` ran. -/
def reactivateSubscriptionFinal (p : Project) (now : Int) : Project :=
  match ReactivateSubscription p now with
  | Except.ok q => q
  | Except.error _ => p

/-- Body of the renewal request accepted by
`handlers/auth.go RenewSubscription`. -/
structure RenewRequest where
  months : Int
  resetTokens : Bool
  newTokenLimit : Int
  extendFromNow : Bool
deriving DecidableEq, Repr

/-- `handlers/auth.go RenewSubscription`: validate the month range, extend
from `now` when `extend_from_now` is set or the project is strictly past
expiry, else extend from the current expiry; always set `status = "active"`
and clear `reminder_sent`; optionally reset usage and update the limit. -/
def RenewSubscription (p : Project) (req : RenewRequest) (now : Int) :
    Except String Project :=
  if req.months ≤ 0 ∨ req.months > 12 then
    Except.error "Months must be between 1 and 12"
  else
    let newExpiryDate :=
      if req.extendFromNow ∨ now > p.expiryDate then addMonths now req.months
      else addMonths p.expiryDate req.months
    let q1 := { p with
                expiryDate := newExpiryDate, status := "active",
                reminderSent := false, updatedAt := now }
    let q2 := if req.resetTokens then { q1 with totalTokensUsed := 0 } else q1
    let q3 := if req.newTokenLimit > 0 then
        { q2 with monthlyTokenLimit := req.newTokenLimit } else q2
    Except.ok q3

/-- Stored project after `RenewSubscription` ran. -/
def renewSubscriptionFinal (p : Project) (req : RenewRequest) (now : Int) : Project :=
  match RenewSubscription p req now with
  | Except.ok q => q
  | Except.error _ => p

/-- `handlers/admin.go RenewProject`: validate the month range, then set
`expiry_date = now + months`, `status = "active"`, clear `reminder_sent`,
and optionally reset usage — note it always extends from `now`. -/
def RenewProject (p : Project) (months : Int) (resetTokens : Bool) (now : Int) :
    Except String Project :=
  if months ≤ 0 ∨ months > 12 then
    Except.error "Months must be between 1 and 12"
  else
    let q1 := { p with
                expiryDate := addMonths now months, status := "active",
                reminderSent := false, updatedAt := now }
    Except.ok (if resetTokens then { q1 with totalTokensUsed := 0 } else q1)

/-- Stored project after the admin `RenewProject` handler ran. -/
def renewProjectFinal (p : Project) (months : Int) (resetTokens : Bool) (now : Int) :
    Project :=
  match RenewProject p months resetTokens now with
  | Except.ok q => q
  | Except.error _ => p

/-- `models/project.go GetUsagePercentage`: guarded division, zero when
the limit is zero. -/
def GetUsagePercentage (p : Project) : ℚ :=
  if p.monthlyTokenLimit = 0 then 0
  else ((p.totalTokensUsed : Int) : ℚ) / ((p.monthlyTokenLimit : Int) : ℚ) * 100

/-- `models/project.go GetRemainingTokens`: clamped at zero. -/
def GetRemainingTokens (p : Project) : Int :=
  let remaining := p.monthlyTokenLimit - p.totalTokensUsed
  if remaining < 0 then 0 else remaining

/-- A suspended project expiring at time 5, for the reactivation claims. -/
def suspendedAtFive : Project :=
  { baseProject with status := "suspended", expiryDate := 5 }

/-- Projection lemma: the stored project produced by
`updateProjectTokenUsage` is the `$inc` result with `updated_at` set. -/
theorem updateProjectTokenUsage_fst (p : Project) (t now : Int)
    (log : List NotificationRecord) :
    (updateProjectTokenUsage p t now log).1 =
      { atomicIncrementUsage p t with updatedAt := now } := rfl

/-- Projection lemma: the notification log produced by
`updateProjectTokenUsage`, branch by branch. -/
theorem updateProjectTokenUsage_snd (p : Project) (t now : Int)
    (log : List NotificationRecord) :
    (updateProjectTokenUsage p t now log).2 =
      if usagePercentAfter p t ≥ 100 then
        if wasNotificationRecentlySent log p.id "monthly_limit" 24 now then log
        else log ++ [monthlyLimitRecord p now]
      else if usagePercentAfter p t ≥ 80 then
        if wasNotificationRecentlySent log p.id "usage_warning" 12 now then log
        else log ++ [usageWarningRecord p now]
      else log := rfl

/-- A project with no `usage_warning` entries at all has no recent one. -/
theorem wasRecent_false_of_warnCount_zero (log : List NotificationRecord)
    (pid : String) (now : Int) (h : warnCount pid log = 0) :
    wasNotificationRecentlySent log pid "usage_warning" 12 now = false := by
  rw [warnCount, List.length_eq_zero, List.filter_eq_nil_iff] at h
  rw [wasNotificationRecentlySent, ← Bool.not_eq_true, List.any_eq_true]
  rintro ⟨n, hn, hpred⟩
  have hno := h n hn
  simp only [Bool.and_eq_true, beq_iff_eq, decide_eq_true_eq] at hpred hno
  exact hno ⟨hpred.1.1, hpred.1.2⟩

/-- For a positive limit the rational usage percentage compares against an
integer bound exactly like the cross-multiplied integer inequality. -/
theorem le_usagePercentAfter_iff (p : Project) (t : Int) (c : Int)
    (hlim : 0 < p.monthlyTokenLimit) :
    (c : ℚ) ≤ usagePercentAfter p t ↔
      c * p.monthlyTokenLimit ≤ 100 * (p.totalTokensUsed + t) := by
  have hb : (0 : ℚ) < ((p.monthlyTokenLimit : Int) : ℚ) := by
    exact_mod_cast hlim
  unfold usagePercentAfter
  rw [div_mul_eq_mul_div, le_div_iff₀ hb]
  rw [show ((p.totalTokensUsed + t : Int) : ℚ) * 100 =
      ((100 * (p.totalTokensUsed + t) : Int) : ℚ) by push_cast; ring]
  rw [show ((c : Int) : ℚ) * ((p.monthlyTokenLimit : Int) : ℚ) =
      ((c * p.monthlyTokenLimit : Int) : ℚ) by push_cast; ring]
  exact Int.cast_le

/-- Strict version of `le_usagePercentAfter_iff`. -/
theorem usagePercentAfter_lt_iff (p : Project) (t : Int) (c : Int)
    (hlim : 0 < p.monthlyTokenLimit) :
    usagePercentAfter p t < (c : ℚ) ↔
      100 * (p.totalTokensUsed + t) < c * p.monthlyTokenLimit := by
  rw [← not_le, ← not_le, not_iff_not]
  exact le_usagePercentAfter_iff p t c hlim

/-- C1: the claim as stated is refuted by the `IsActive` check: this
project satisfies `status = "active"`, `now < expiry_date` and
`total_tokens_used < monthly_token_limit`, yet with `is_active = false`
the evaluation blocks the request instead of allowing it. -/
theorem c1_inactive_flag_blocks_counterexample :
    baseProject.status = "active" ∧
    (0 : Int) < baseProject.expiryDate ∧
    baseProject.totalTokensUsed < baseProject.monthlyTokenLimit ∧
    (subscriptionEvaluation { baseProject with isActive := false } 0).fst =
      Except.error "This project is no longer available" := by
  refine ⟨rfl, by decide, by decide, ?_⟩
  rfl

/-- C1 (amended): a project with `status = "active"`, `now < expiry_date`
and `total_tokens_used < monthly_token_limit` is allowed by
`getProjectWithValidation` as the claim states, and by the middleware
evaluation (`validateProjectSubscription` then `TokenLimitValidator`)
provided additionally `is_active = true`; no status update is emitted. -/
theorem c1_eval_allows_active_project (p : Project) (now : Int)
    (hstatus : p.status = "active") (hexp : now < p.expiryDate)
    (htok : p.totalTokensUsed < p.monthlyTokenLimit) :
    getProjectWithValidation p now = (Except.ok p, []) ∧
    (p.isActive = true → subscriptionEvaluation p now = (Except.ok p, [])) := by
  have hnotafter : ¬ now > p.expiryDate := by omega
  have hnotge : ¬ p.totalTokensUsed ≥ p.monthlyTokenLimit := by omega
  constructor
  · simp [getProjectWithValidation, hstatus, hnotafter, hnotge]
  · intro hactive
    simp [subscriptionEvaluation, validateProjectSubscription, tokenLimitValidator,
      hstatus, hnotafter, hactive, hnotge]

/-- C1 witness: the amended theorem applied to the base project at time 0. -/
theorem c1_eval_allows_active_project_witness :
    baseProject.status = "active" ∧ (0 : Int) < baseProject.expiryDate ∧
    baseProject.totalTokensUsed < baseProject.monthlyTokenLimit ∧
    (getProjectWithValidation baseProject 0 = (Except.ok baseProject, []) ∧
      (baseProject.isActive = true →
        subscriptionEvaluation baseProject 0 = (Except.ok baseProject, []))) :=
  ⟨rfl, by decide, by decide,
    c1_eval_allows_active_project baseProject 0 rfl (by decide) (by decide)⟩

/-- C2: the claim as stated is refuted on two inputs.  A suspended project
past its expiry is blocked with the suspension reason, not `expired`, and
no status update is emitted; and an active project at exactly
`now = expiry_date` is not blocked at all (the Go check `time.Now().After`
is strict). -/
theorem c2_expiry_counterexample :
    ((5 : Int) ≥ { baseProject with status := "suspended", expiryDate := 3 }.expiryDate ∧
      validateProjectSubscription
          { baseProject with status := "suspended", expiryDate := 3 } 5 =
        (Except.error "Your account is suspended. Please contact support", [])) ∧
    ((7 : Int) ≥ { baseProject with expiryDate := 7 }.expiryDate ∧
      validateProjectSubscription { baseProject with expiryDate := 7 } 7 =
        (Except.ok { baseProject with expiryDate := 7 }, [])) := by
  exact ⟨⟨by decide, rfl⟩, ⟨by decide, rfl⟩⟩

/-- C2 (amended): for a project whose stored status is `"active"` and with
`now > expiry_date` (strictly), both validators block with the expired
message and emit the `(projectId, "expired")` persistence command (issued
asynchronously in `auth.go`, synchronously in `chat.go`); a project whose
stored status is not `"active"` is blocked with its status-based reason and
no persistence command is emitted. -/
theorem c2_lazy_expiry (p : Project) (now : Int) :
    (p.status = "active" → now > p.expiryDate →
      validateProjectSubscription p now =
        (Except.error "Your subscription has expired. Please renew to continue",
          [(p.projectId, "expired")]) ∧
      getProjectWithValidation p now =
        (Except.error "Your subscription has expired. Please renew to continue.",
          [(p.projectId, "expired")])) ∧
    (p.status ≠ "active" →
      validateProjectSubscription p now =
        (Except.error (statusBlockMessageAuth p.status), []) ∧
      getProjectWithValidation p now =
        (Except.error (statusBlockMessageChat p.status), [])) := by
  constructor
  · intro hstatus hafter
    constructor
    · simp [validateProjectSubscription, hstatus, hafter]
    · simp [getProjectWithValidation, hstatus, hafter]
  · intro hstatus
    constructor
    · simp [validateProjectSubscription, hstatus]
    · simp [getProjectWithValidation, hstatus]

/-- C2 witness: the amended theorem applied to an active project one second
past expiry. -/
theorem c2_lazy_expiry_witness :
    ({ baseProject with expiryDate := 3 }.status = "active" ∧
      (4 : Int) > { baseProject with expiryDate := 3 }.expiryDate ∧
      validateProjectSubscription { baseProject with expiryDate := 3 } 4 =
        (Except.error "Your subscription has expired. Please renew to continue",
          [("proj_base", "expired")]) ∧
      getProjectWithValidation { baseProject with expiryDate := 3 } 4 =
        (Except.error "Your subscription has expired. Please renew to continue.",
          [("proj_base", "expired")])) :=
  ⟨rfl, by decide,
    (c2_lazy_expiry { baseProject with expiryDate := 3 } 4).1 rfl (by decide)⟩

/-- C3: charging is the single store-level `$inc`; two sequential charges
of `t` tokens leave `total_tokens_used` increased by exactly `2t`, both at
the raw store operation and through `updateProjectTokenUsage`. -/
theorem c3_sequential_charges_sum (p : Project) (t now1 now2 : Int)
    (log1 log2 : List NotificationRecord) :
    (atomicIncrementUsage (atomicIncrementUsage p t) t).totalTokensUsed =
      p.totalTokensUsed + 2 * t ∧
    (updateProjectTokenUsage (updateProjectTokenUsage p t now1 log1).1
        t now2 log2).1.totalTokensUsed = p.totalTokensUsed + 2 * t := by
  refine ⟨?_, ?_⟩ <;>
    · simp [updateProjectTokenUsage, atomicIncrementUsage]
      ring

/-- C4: the threshold policy of `updateProjectTokenUsage` — `monthly_limit`
at 100% with a 24-hour dedup, else `usage_warning` at 80% with a 12-hour
dedup — and its corollary: driving the warning path twice within 12 hours
appends exactly one `usage_warning` entry. -/
theorem c4_warning_dedup (p : Project) (t1 t2 now1 now2 : Int)
    (log0 : List NotificationRecord)
    (h80a : (80 : ℚ) ≤ usagePercentAfter p t1)
    (h100a : usagePercentAfter p t1 < 100)
    (h80b : (80 : ℚ) ≤ usagePercentAfter (updateProjectTokenUsage p t1 now1 log0).1 t2)
    (h100b : usagePercentAfter (updateProjectTokenUsage p t1 now1 log0).1 t2 < 100)
    (hfresh : warnCount p.id log0 = 0)
    (hwin : now2 ≤ now1 + 12 * 3600) :
    (∀ (q : Project) (u nw : Int) (lg : List NotificationRecord),
      (usagePercentAfter q u ≥ 100 →
        (updateProjectTokenUsage q u nw lg).2 =
          if wasNotificationRecentlySent lg q.id "monthly_limit" 24 nw then lg
          else lg ++ [monthlyLimitRecord q nw]) ∧
      (usagePercentAfter q u < 100 → usagePercentAfter q u ≥ 80 →
        (updateProjectTokenUsage q u nw lg).2 =
          if wasNotificationRecentlySent lg q.id "usage_warning" 12 nw then lg
          else lg ++ [usageWarningRecord q nw]) ∧
      (usagePercentAfter q u < 80 → (updateProjectTokenUsage q u nw lg).2 = lg)) ∧
    (updateProjectTokenUsage p t1 now1 log0).2 = log0 ++ [usageWarningRecord p now1] ∧
    (updateProjectTokenUsage (updateProjectTokenUsage p t1 now1 log0).1 t2 now2
        (updateProjectTokenUsage p t1 now1 log0).2).2 =
      (updateProjectTokenUsage p t1 now1 log0).2 ∧
    warnCount p.id
      (updateProjectTokenUsage (updateProjectTokenUsage p t1 now1 log0).1 t2 now2
        (updateProjectTokenUsage p t1 now1 log0).2).2 = 1 := by
  have policy : ∀ (q : Project) (u nw : Int) (lg : List NotificationRecord),
      (usagePercentAfter q u ≥ 100 →
        (updateProjectTokenUsage q u nw lg).2 =
          if wasNotificationRecentlySent lg q.id "monthly_limit" 24 nw then lg
          else lg ++ [monthlyLimitRecord q nw]) ∧
      (usagePercentAfter q u < 100 → usagePercentAfter q u ≥ 80 →
        (updateProjectTokenUsage q u nw lg).2 =
          if wasNotificationRecentlySent lg q.id "usage_warning" 12 nw then lg
          else lg ++ [usageWarningRecord q nw]) ∧
      (usagePercentAfter q u < 80 → (updateProjectTokenUsage q u nw lg).2 = lg) := by
    intro q u nw lg
    refine ⟨?_, ?_, ?_⟩
    · intro h100
      rw [updateProjectTokenUsage_snd, if_pos h100]
    · intro h100 h80
      rw [updateProjectTokenUsage_snd, if_neg (not_le.mpr h100), if_pos h80]
    · intro h80
      rw [updateProjectTokenUsage_snd, if_neg (not_le.mpr (lt_of_lt_of_le h80 (by norm_num))),
        if_neg (not_le.mpr h80)]
  have hid : (updateProjectTokenUsage p t1 now1 log0).1.id = p.id := rfl
  have hw0 : wasNotificationRecentlySent log0 p.id "usage_warning" 12 now1 = false :=
    wasRecent_false_of_warnCount_zero log0 p.id now1 hfresh
  have hlog1 : (updateProjectTokenUsage p t1 now1 log0).2 =
      log0 ++ [usageWarningRecord p now1] := by
    rw [(policy p t1 now1 log0).2.1 h100a h80a, hw0]
    simp
  have hw1 : wasNotificationRecentlySent ((updateProjectTokenUsage p t1 now1 log0).2)
      ((updateProjectTokenUsage p t1 now1 log0).1.id) "usage_warning" 12 now2 = true := by
    rw [hlog1, hid]
    rw [wasNotificationRecentlySent, List.any_eq_true]
    refine ⟨usageWarningRecord p now1, by simp, ?_⟩
    simp only [usageWarningRecord, Bool.and_eq_true, beq_iff_eq, decide_eq_true_eq,
      beq_self_eq_true, and_true, true_and]
    omega
  have hlog2 : (updateProjectTokenUsage (updateProjectTokenUsage p t1 now1 log0).1 t2 now2
      (updateProjectTokenUsage p t1 now1 log0).2).2 =
      (updateProjectTokenUsage p t1 now1 log0).2 := by
    rw [(policy _ t2 now2 _).2.1 h100b h80b, hw1]
    simp
  refine ⟨policy, hlog1, hlog2, ?_⟩
  rw [hlog2, hlog1]
  unfold warnCount at hfresh ⊢
  rw [List.filter_append, List.length_append, hfresh]
  simp [usageWarningRecord]

/-- C4 witness: a 1000-token-limit project charged 850 then 50 tokens
(85% then 90%) at times 0 and 100 seconds, starting from an empty log,
ends with exactly one `usage_warning` entry. -/
theorem c4_warning_dedup_witness :
    ((80 : ℚ) ≤ usagePercentAfter meteredProject 850) ∧
    (usagePercentAfter meteredProject 850 < 100) ∧
    ((80 : ℚ) ≤ usagePercentAfter (updateProjectTokenUsage meteredProject 850 0 []).1 50) ∧
    (usagePercentAfter (updateProjectTokenUsage meteredProject 850 0 []).1 50 < 100) ∧
    warnCount meteredProject.id ([] : List NotificationRecord) = 0 ∧
    ((100 : Int) ≤ 0 + 12 * 3600) ∧
    warnCount meteredProject.id
      (updateProjectTokenUsage (updateProjectTokenUsage meteredProject 850 0 []).1 50 100
        (updateProjectTokenUsage meteredProject 850 0 []).2).2 = 1 := by
  have h80a : (80 : ℚ) ≤ usagePercentAfter meteredProject 850 :=
    (le_usagePercentAfter_iff meteredProject 850 80 (by decide)).mpr (by decide)
  have h100a : usagePercentAfter meteredProject 850 < 100 :=
    (usagePercentAfter_lt_iff meteredProject 850 100 (by decide)).mpr (by decide)
  have h80b : (80 : ℚ) ≤
      usagePercentAfter (updateProjectTokenUsage meteredProject 850 0 []).1 50 :=
    (le_usagePercentAfter_iff (updateProjectTokenUsage meteredProject 850 0 []).1 50 80
      (by decide)).mpr (by decide)
  have h100b : usagePercentAfter (updateProjectTokenUsage meteredProject 850 0 []).1 50 < 100 :=
    (usagePercentAfter_lt_iff (updateProjectTokenUsage meteredProject 850 0 []).1 50 100
      (by decide)).mpr (by decide)
  exact ⟨h80a, h100a, h80b, h100b, by decide, by decide,
    (c4_warning_dedup meteredProject 850 50 0 100 [] h80a h100a h80b h100b
      (by decide) (by decide)).2.2.2⟩

/-- C7: when the LLM call fails — transport error or empty choice list —
the chat request returns the generic error response, nothing is inserted,
and the stored project (hence `total_tokens_used`) is unchanged; the
`$inc` charge is applied exactly on a successful LLM response. -/
theorem c7_no_charge_on_llm_failure (p : Project)
    (e userMessage sessionId userId choice : String) (rest : List String)
    (now k : Int) :
    ProjectChatMessage (some p) (Except.error e) userMessage sessionId userId now =
      ⟨some p, [], ChatOutcome.llmFailed "Failed to generate response"⟩ ∧
    ProjectChatMessage (some p) (Except.ok ([], k)) userMessage sessionId userId now =
      ⟨some p, [], ChatOutcome.llmFailed "Failed to generate response"⟩ ∧
    (ProjectChatMessage (some p) (Except.ok (choice :: rest, k))
        userMessage sessionId userId now).store =
      some (atomicIncrementUsage p k) := by
  exact ⟨rfl, rfl, rfl⟩

/-- Field values of the stored project after a successful
`RenewSubscription`. -/
theorem renewSubscriptionFinal_fields (p : Project) (req : RenewRequest) (now : Int)
    (h : ¬(req.months ≤ 0 ∨ req.months > 12)) :
    (renewSubscriptionFinal p req now).expiryDate =
      (if req.extendFromNow ∨ now > p.expiryDate then addMonths now req.months
       else addMonths p.expiryDate req.months) ∧
    (renewSubscriptionFinal p req now).status = "active" ∧
    (renewSubscriptionFinal p req now).reminderSent = false := by
  unfold renewSubscriptionFinal RenewSubscription
  rw [if_neg h]
  by_cases hr : req.resetTokens <;> by_cases hl : req.newTokenLimit > 0 <;>
    simp [hr, hl]

/-- Field values of the stored project after a successful admin
`RenewProject`. -/
theorem renewProjectFinal_fields (p : Project) (months : Int) (resetTokens : Bool)
    (now : Int) (h : ¬(months ≤ 0 ∨ months > 12)) :
    (renewProjectFinal p months resetTokens now).expiryDate = addMonths now months ∧
    (renewProjectFinal p months resetTokens now).status = "active" ∧
    (renewProjectFinal p months resetTokens now).reminderSent = false := by
  unfold renewProjectFinal RenewProject
  rw [if_neg h]
  by_cases hr : resetTokens <;> simp [hr]

/-- C5: the claim as stated is refuted by the admin `RenewProject`
handler: renewing the base project for 1 month at time 0, while it is not
expired, yields `expiry_date = now + 1 month` instead of
`old_expiry + 1 month`. -/
theorem c5_admin_renew_from_now_counterexample :
    (0 : Int) < baseProject.expiryDate ∧
    (renewProjectFinal baseProject 1 false 0).expiryDate = addMonths 0 1 ∧
    (renewProjectFinal baseProject 1 false 0).expiryDate ≠
      addMonths baseProject.expiryDate 1 := by
  refine ⟨by decide, by decide, by decide⟩

/-- C5 (amended): for `RenewSubscription` with `extend_from_now` unset and
1-12 months, renewal from a strictly expired project extends from `now`
and otherwise from the old expiry; both renewal handlers always set
`status = "active"` and clear `reminder_sent`; the admin `RenewProject`
always sets `expiry_date = now + months`, even when not expired. -/
theorem c5_renewal_expiry_rules (p : Project) (req : RenewRequest) (now : Int)
    (hm0 : 0 < req.months) (hm12 : req.months ≤ 12)
    (hext : req.extendFromNow = false) :
    (now > p.expiryDate →
      (renewSubscriptionFinal p req now).expiryDate = addMonths now req.months) ∧
    (now ≤ p.expiryDate →
      (renewSubscriptionFinal p req now).expiryDate =
        addMonths p.expiryDate req.months) ∧
    (renewSubscriptionFinal p req now).status = "active" ∧
    (renewSubscriptionFinal p req now).reminderSent = false ∧
    (renewProjectFinal p req.months req.resetTokens now).expiryDate =
      addMonths now req.months ∧
    (renewProjectFinal p req.months req.resetTokens now).status = "active" ∧
    (renewProjectFinal p req.months req.resetTokens now).reminderSent = false := by
  have hbound : ¬(req.months ≤ 0 ∨ req.months > 12) := by omega
  obtain ⟨he, hs, hr⟩ := renewSubscriptionFinal_fields p req now hbound
  obtain ⟨he2, hs2, hr2⟩ :=
    renewProjectFinal_fields p req.months req.resetTokens now hbound
  refine ⟨?_, ?_, hs, hr, he2, hs2, hr2⟩
  · intro hexp
    rw [he, if_pos (Or.inr hexp)]
  · intro hexp
    have hcond : ¬(req.extendFromNow ∨ now > p.expiryDate) := by
      rintro (hb | hb)
      · rw [hext] at hb
        simp at hb
      · omega
    rw [he, if_neg hcond]

/-- C5 witness: the amended theorem applied to the base project, renewed
for one month at time 0 while still active. -/
theorem c5_renewal_expiry_rules_witness :
    (0 : Int) < (1 : Int) ∧ (1 : Int) ≤ 12 ∧
    (⟨1, true, 0, false⟩ : RenewRequest).extendFromNow = false ∧
    (((0 : Int) > baseProject.expiryDate →
      (renewSubscriptionFinal baseProject ⟨1, true, 0, false⟩ 0).expiryDate =
        addMonths 0 1) ∧
    ((0 : Int) ≤ baseProject.expiryDate →
      (renewSubscriptionFinal baseProject ⟨1, true, 0, false⟩ 0).expiryDate =
        addMonths baseProject.expiryDate 1) ∧
    (renewSubscriptionFinal baseProject ⟨1, true, 0, false⟩ 0).status = "active" ∧
    (renewSubscriptionFinal baseProject ⟨1, true, 0, false⟩ 0).reminderSent = false ∧
    (renewProjectFinal baseProject 1 true 0).expiryDate = addMonths 0 1 ∧
    (renewProjectFinal baseProject 1 true 0).status = "active" ∧
    (renewProjectFinal baseProject 1 true 0).reminderSent = false) :=
  ⟨by decide, by decide, rfl,
    c5_renewal_expiry_rules baseProject ⟨1, true, 0, false⟩ 0
      (by decide) (by decide) rfl⟩

/-- C6: the claim as stated is refuted at the boundary `now = expiry_date`:
the admin reactivation handler succeeds there (the Go check
`time.Now().After` is strict) and flips the suspended project to active,
where the claim demands an AlreadyExpired failure with status unchanged. -/
theorem c6_boundary_reactivation_counterexample :
    (5 : Int) ≥ suspendedAtFive.expiryDate ∧
    ReactivateProject suspendedAtFive 5 =
      Except.ok { suspendedAtFive with status := "active", updatedAt := 5 } ∧
    (reactivateProjectFinal suspendedAtFive 5).status = "active" ∧
    suspendedAtFive.status = "suspended" := by
  refine ⟨by decide, rfl, rfl, rfl⟩

/-- C6 (amended): both reactivation handlers fail when `now` is strictly
past `expiry_date`, leaving the stored record unchanged; when
`now ≤ expiry_date` the stored status ends up `"active"` — though
`ReactivateSubscription` rejects an already-active project with an error
(its status simply stays `"active"`). -/
theorem c6_reactivate_rules (p : Project) (now : Int) :
    (now > p.expiryDate →
      ReactivateProject p now =
        Except.error "Cannot reactivate expired project. Please renew first." ∧
      reactivateProjectFinal p now = p ∧
      ReactivateSubscription p now =
        Except.error "Cannot reactivate expired subscription. Please renew first." ∧
      reactivateSubscriptionFinal p now = p) ∧
    (now ≤ p.expiryDate →
      (reactivateProjectFinal p now).status = "active" ∧
      (reactivateSubscriptionFinal p now).status = "active" ∧
      (p.status = "active" →
        ReactivateSubscription p now =
          Except.error "Subscription is already active")) := by
  constructor
  · intro hexp
    have h1 : ReactivateProject p now =
        Except.error "Cannot reactivate expired project. Please renew first." := by
      unfold ReactivateProject
      rw [if_pos hexp]
    have h2 : ReactivateSubscription p now =
        Except.error "Cannot reactivate expired subscription. Please renew first." := by
      unfold ReactivateSubscription
      rw [if_pos hexp]
    refine ⟨h1, ?_, h2, ?_⟩
    · unfold reactivateProjectFinal
      rw [h1]
    · unfold reactivateSubscriptionFinal
      rw [h2]
  · intro hexp
    have hnot : ¬ now > p.expiryDate := by omega
    have hadm : (reactivateProjectFinal p now).status = "active" := by
      unfold reactivateProjectFinal ReactivateProject
      rw [if_neg hnot]
    by_cases hs : p.status = "active"
    · have h2 : ReactivateSubscription p now =
          Except.error "Subscription is already active" := by
        unfold ReactivateSubscription
        rw [if_neg hnot, if_pos hs]
      refine ⟨hadm, ?_, fun _ => h2⟩
      unfold reactivateSubscriptionFinal
      rw [h2]
      exact hs
    · have h2 : ReactivateSubscription p now =
          Except.ok { p with status := "active", updatedAt := now } := by
        unfold ReactivateSubscription
        rw [if_neg hnot, if_neg hs]
      refine ⟨hadm, ?_, fun hc => absurd hc hs⟩
      unfold reactivateSubscriptionFinal
      rw [h2]

/-- C6 witness: the amended theorem applied to the suspended project
strictly past expiry (time 9) and before expiry (time 3). -/
theorem c6_reactivate_rules_witness :
    ((9 : Int) > suspendedAtFive.expiryDate ∧
      (ReactivateProject suspendedAtFive 9 =
        Except.error "Cannot reactivate expired project. Please renew first." ∧
      reactivateProjectFinal suspendedAtFive 9 = suspendedAtFive ∧
      ReactivateSubscription suspendedAtFive 9 =
        Except.error "Cannot reactivate expired subscription. Please renew first." ∧
      reactivateSubscriptionFinal suspendedAtFive 9 = suspendedAtFive)) ∧
    ((3 : Int) ≤ suspendedAtFive.expiryDate ∧
      ((reactivateProjectFinal suspendedAtFive 3).status = "active" ∧
      (reactivateSubscriptionFinal suspendedAtFive 3).status = "active" ∧
      (suspendedAtFive.status = "active" →
        ReactivateSubscription suspendedAtFive 3 =
          Except.error "Subscription is already active"))) :=
  ⟨⟨by decide, (c6_reactivate_rules suspendedAtFive 9).1 (by decide)⟩,
   ⟨by decide, (c6_reactivate_rules suspendedAtFive 3).2 (by decide)⟩⟩

/-- One sweep pass is enough: re-sweeping a swept record changes nothing. -/
theorem sweepProject_idem (now : Int) (p : Project) :
    sweepProject now (sweepProject now p) = sweepProject now p := by
  by_cases h : p.expiryDate < now ∧ p.status ≠ "expired"
  · have h1 : sweepProject now p = { p with status := "expired", updatedAt := now } := by
      unfold sweepProject
      rw [if_pos h]
    rw [h1]
    unfold sweepProject
    rw [if_neg (by simp)]
  · have h1 : sweepProject now p = p := by
      unfold sweepProject
      rw [if_neg h]
    rw [h1, h1]

/-- A swept record no longer matches the sweep filter. -/
theorem expiredMatch_sweepProject (now : Int) (p : Project) :
    expiredMatch now (sweepProject now p) = false := by
  by_cases h : p.expiryDate < now ∧ p.status ≠ "expired"
  · have h1 : sweepProject now p = { p with status := "expired", updatedAt := now } := by
      unfold sweepProject
      rw [if_pos h]
    rw [h1]
    simp [expiredMatch]
  · have h1 : sweepProject now p = p := by
      unfold sweepProject
      rw [if_neg h]
    rw [h1, expiredMatch, decide_eq_false h]

/-- C8: the sweep sets `status = "expired"` on every record matching
`expiry_date < now AND status != "expired"`, re-running it immediately is
a no-op, and after one run the filter matches no records. -/
theorem c8_sweep_expires_and_idempotent (now : Int) (ps : List Project) :
    (∀ p ∈ ps, p.expiryDate < now → p.status ≠ "expired" →
      (sweepProject now p).status = "expired") ∧
    UpdateExpiredProjects now (UpdateExpiredProjects now ps) =
      UpdateExpiredProjects now ps ∧
    (UpdateExpiredProjects now ps).countP (expiredMatch now) = 0 := by
  refine ⟨?_, ?_, ?_⟩
  · intro p _ h1 h2
    unfold sweepProject
    rw [if_pos ⟨h1, h2⟩]
  · induction ps with
    | nil => rfl
    | cons a l ih =>
      simp only [UpdateExpiredProjects, List.map_cons] at ih ⊢
      rw [sweepProject_idem now a, ih]
  · induction ps with
    | nil => rfl
    | cons a l ih =>
      simp only [UpdateExpiredProjects, List.map_cons, List.countP_cons] at ih ⊢
      rw [expiredMatch_sweepProject now a, ih]
      simp

/-- C8 witness: the theorem applied to a one-element collection holding an
active project five seconds past expiry, swept at time 10. -/
theorem c8_sweep_expires_and_idempotent_witness :
    ({ baseProject with expiryDate := 5 }.expiryDate < (10 : Int) ∧
      { baseProject with expiryDate := 5 }.status ≠ "expired" ∧
      (sweepProject 10 { baseProject with expiryDate := 5 }).status = "expired") ∧
    UpdateExpiredProjects 10 (UpdateExpiredProjects 10 [{ baseProject with expiryDate := 5 }]) =
      UpdateExpiredProjects 10 [{ baseProject with expiryDate := 5 }] ∧
    (UpdateExpiredProjects 10 [{ baseProject with expiryDate := 5 }]).countP
      (expiredMatch 10) = 0 :=
  ⟨⟨by decide, by decide,
    (c8_sweep_expires_and_idempotent 10 [{ baseProject with expiryDate := 5 }]).1
      { baseProject with expiryDate := 5 } (by simp) (by decide) (by decide)⟩,
   (c8_sweep_expires_and_idempotent 10 [{ baseProject with expiryDate := 5 }]).2.1,
   (c8_sweep_expires_and_idempotent 10 [{ baseProject with expiryDate := 5 }]).2.2⟩

/-- C9: the claim as stated is refuted: the sweep filter excludes only
records already in status `"expired"`, so a soft-deleted project whose
expiry is past is re-labelled `"expired"` by the sweep rather than left
in the terminal `"deleted"` state. -/
theorem c9_sweep_relabels_deleted_counterexample :
    (DeleteProject { baseProject with expiryDate := 5 } 1).status = "deleted" ∧
    (sweepProject 10 (DeleteProject { baseProject with expiryDate := 5 } 1)).status =
      "expired" := by
  refine ⟨rfl, by decide⟩

/-- C9 (amended): the sweep leaves a soft-deleted project unchanged only
while `now ≤ expiry_date`; once `expiry_date < now` it sets the status to
`"expired"` (only the `is_active = false` flag still records the
deletion, since the sweep never touches `is_active`). -/
theorem c9_deleted_under_sweep (p : Project) (now : Int)
    (hdel : p.status = "deleted") :
    (now ≤ p.expiryDate → sweepProject now p = p) ∧
    (p.expiryDate < now → (sweepProject now p).status = "expired") ∧
    (sweepProject now p).isActive = p.isActive := by
  refine ⟨?_, ?_, ?_⟩
  · intro hle
    unfold sweepProject
    rw [if_neg (fun hc => absurd hc.1 (by omega))]
  · intro hlt
    unfold sweepProject
    rw [if_pos ⟨hlt, by rw [hdel]; decide⟩]
  · by_cases h : p.expiryDate < now ∧ p.status ≠ "expired"
    · unfold sweepProject
      rw [if_pos h]
    · unfold sweepProject
      rw [if_neg h]

/-- C9 witness: the amended theorem applied to a deleted project expiring
at time 5, swept at time 3 (unchanged) — with the relabelling branch
visible at time 10 through the same theorem. -/
theorem c9_deleted_under_sweep_witness :
    (DeleteProject { baseProject with expiryDate := 5 } 1).status = "deleted" ∧
    ((3 : Int) ≤ (DeleteProject { baseProject with expiryDate := 5 } 1).expiryDate ∧
      sweepProject 3 (DeleteProject { baseProject with expiryDate := 5 } 1) =
        DeleteProject { baseProject with expiryDate := 5 } 1) ∧
    ((DeleteProject { baseProject with expiryDate := 5 } 1).expiryDate < (10 : Int) ∧
      (sweepProject 10 (DeleteProject { baseProject with expiryDate := 5 } 1)).status =
        "expired") :=
  ⟨rfl,
   ⟨by decide,
    (c9_deleted_under_sweep (DeleteProject { baseProject with expiryDate := 5 } 1) 3
      rfl).1 (by decide)⟩,
   ⟨by decide,
    (c9_deleted_under_sweep (DeleteProject { baseProject with expiryDate := 5 } 1) 10
      rfl).2.1 (by decide)⟩⟩

/-- C10: `GetUsagePercentage` is guarded against a zero limit, and
`GetRemainingTokens` is clamped: never negative, and exactly 0 as soon as
usage exceeds the limit. -/
theorem c10_usage_helpers_safe (p : Project) :
    (p.monthlyTokenLimit = 0 → GetUsagePercentage p = 0) ∧
    0 ≤ GetRemainingTokens p ∧
    (p.monthlyTokenLimit < p.totalTokensUsed → GetRemainingTokens p = 0) := by
  refine ⟨?_, ?_, ?_⟩
  · intro h
    unfold GetUsagePercentage
    rw [if_pos h]
  · unfold GetRemainingTokens
    by_cases h : p.monthlyTokenLimit - p.totalTokensUsed < 0
    · rw [if_pos h]
    · rw [if_neg h]
      omega
  · intro h
    unfold GetRemainingTokens
    rw [if_pos (by omega)]

/-- C10 witness: the theorem applied to a zero-limit project with positive
usage. -/
theorem c10_usage_helpers_safe_witness :
    ({ baseProject with monthlyTokenLimit := 0, totalTokensUsed := 7 }.monthlyTokenLimit = 0 ∧
      GetUsagePercentage { baseProject with monthlyTokenLimit := 0, totalTokensUsed := 7 } = 0) ∧
    0 ≤ GetRemainingTokens { baseProject with monthlyTokenLimit := 0, totalTokensUsed := 7 } ∧
    ({ baseProject with monthlyTokenLimit := 0, totalTokensUsed := 7 }.monthlyTokenLimit <
      { baseProject with monthlyTokenLimit := 0, totalTokensUsed := 7 }.totalTokensUsed ∧
      GetRemainingTokens { baseProject with monthlyTokenLimit := 0, totalTokensUsed := 7 } = 0) :=
  ⟨⟨rfl,
    (c10_usage_helpers_safe { baseProject with monthlyTokenLimit := 0, totalTokensUsed := 7 }).1 rfl⟩,
   (c10_usage_helpers_safe { baseProject with monthlyTokenLimit := 0, totalTokensUsed := 7 }).2.1,
   ⟨by decide,
    (c10_usage_helpers_safe { baseProject with monthlyTokenLimit := 0, totalTokensUsed := 7 }).2.2
      (by decide)⟩⟩
